import Mathlib

/-!
# A shallow embedding of "The Almost Final Countdown"

This development embeds the UI components of the repository:

* `ResultModal` (src/unnamed/part_002, the forwardRef component): a pure
  display projection of `(targetTime, remainingTime)`.
* `TimerChallenge` (src/src/components/TimerChallenge.jsx, the final
  setInterval variant): a widget holding `timeRemaining` state, a `timer`
  ref for the interval handle, and a `dialog` ref used to open the modal.
* `Player` (src/unnamed/part_002, second component): an uncontrolled text
  input read only at submission time.

The host runtime (the browser scheduler plus React's rendering) is
modelled as a small-step transition system.  One abstraction is applied
to the scheduler: interval ids are opaque and `clearInterval` is only
ever invoked on the id stored in `timer.current`, so the live intervals
are tracked by a count `live : ℕ` together with a flag `handleLive`
recording whether the id currently stored in `timer.current` is still
uncancelled.  (`clearInterval` on `undefined` or on an already-cleared
id is a no-op, which the flag captures uniformly.)  Every interval of a
widget runs the same callback — decrement `timeRemaining` by 10 — so
tick identity beyond liveness is unobservable.
-/

namespace Countdown

/-! ## ResultModal (src/unnamed/part_002, lines 15–60)

`didUserLose`, `score` and the rendered heading are pure functions of the
props `targetTime` (seconds) and `remainingTime` (milliseconds), exactly
as computed in the component body.  JavaScript's `Math.round` rounds
half-way cases toward `+∞`, which is Mathlib's `round` on `ℚ`. -/

/-- The heading rendered by the dialog: `You lost!` when `didUserLose`,
else `Your score: {score}!`. -/
inductive ModalHeading where
  | lost
  | score (value : ℤ)
deriving DecidableEq, Repr

/-- `const didUserLose = remainingTime <= 0;` -/
def didUserLose (remainingTime : ℤ) : Bool :=
  remainingTime ≤ 0

/-- `const score = Math.round((1 - remainingTime / (targetTime * 1000)) * 100);` -/
def score (targetTime : ℕ) (remainingTime : ℤ) : ℤ :=
  round ((1 - (remainingTime : ℚ) / ((targetTime : ℚ) * 1000)) * 100)

/-- The dialog heading: `{didUserLose && <h2>You lost!</h2>}` and
`{!didUserLose && <h2>Your score: {score}!</h2>}`. -/
def modalHeading (targetTime : ℕ) (remainingTime : ℤ) : ModalHeading :=
  if didUserLose remainingTime then ModalHeading.lost
  else ModalHeading.score (score targetTime remainingTime)

/-! ## TimerChallenge (src/src/components/TimerChallenge.jsx)

State of one widget instance together with the scheduler resources it
owns.  `targetMs` is `targetTime * 1000` for a whole-second `targetTime`
prop; `remaining` is the `timeRemaining` React state (an integer number
of milliseconds, possibly negative); `live` counts the widget's
uncancelled intervals; `handleLive` records whether `timer.current`
still names an uncancelled interval; `dialogOpen` records whether the
result modal is showing (opened via `dialog.current.open()`, i.e.
`showModal()`, which makes it modal: while open it blocks clicks on the
challenge button, and closing it fires `onClose`/`onSubmit`, both wired
to `onReset`). -/
structure WidgetState where
  targetMs : ℤ
  remaining : ℤ
  live : ℕ
  handleLive : Bool
  dialogOpen : Bool
deriving DecidableEq, Repr

/-- A freshly mounted widget with `targetTime = t` seconds:
`useState(targetTime * 1000)`, no interval armed, dialog closed. -/
def init (t : ℕ) : WidgetState :=
  ⟨1000 * t, 1000 * t, 0, false, false⟩

/-- `const isTimerActive = timeRemaining > 0 && timeRemaining < targetTime * 1000;` -/
def isTimerActive (s : WidgetState) : Bool :=
  decide (0 < s.remaining ∧ s.remaining < s.targetMs)

/-- `clearInterval(timer.current)`: cancels the interval named by
`timer.current` when it is still live, otherwise a no-op (this covers
`timer.current === undefined` and an already-cleared id alike). -/
def clearHandle (s : WidgetState) : WidgetState :=
  if s.handleLive then { s with live := s.live - 1, handleLive := false } else s

/-- The render-time check (lines 49–52): on every render, when
`timeRemaining <= 0`, the component clears the interval and opens the
dialog.  It runs after each `setTimeRemaining` (ticks and reset). -/
def renderCheck (s : WidgetState) : WidgetState :=
  if s.remaining ≤ 0 then { clearHandle s with dialogOpen := true } else s

/-- `handleStart` (lines 58–74): arms a fresh 10 ms interval and stores
its id in `timer.current`, overwriting whatever was there.  It sets no
React state, so no re-render (and no zero-check) happens. -/
def handleStart (s : WidgetState) : WidgetState :=
  { s with live := s.live + 1, handleLive := true }

/-- `handleStop` (lines 76–83): `clearInterval(timer.current)` then
`dialog.current.open()`.  It sets no React state either. -/
def handleStop (s : WidgetState) : WidgetState :=
  { clearHandle s with dialogOpen := true }

/-- `handleReset` (lines 54–56): `setTimeRemaining(targetTime * 1000)`,
which re-renders, so the render-time zero-check runs on the new state. -/
def handleReset (s : WidgetState) : WidgetState :=
  renderCheck { s with remaining := s.targetMs, dialogOpen := false }

/-- Events delivered to one widget by the host runtime:

* `press` — a click on the single challenge button, whose handler is
  `isTimerActive ? handleStop : handleStart` as of the latest render
  (`timeRemaining` only changes through `setTimeRemaining`, which always
  re-renders, so the rendered `isTimerActive` agrees with the state);
  while the modal dialog is open it blocks the click entirely;
* `tick` — one invocation of an uncancelled interval callback:
  `setTimeRemaining(prev => prev - 10)`, followed by the re-render and
  its zero-check;
* `reset` — the user dismisses the open dialog (CLOSE button or Escape),
  which closes it and fires `onReset`. -/
inductive Event where
  | press
  | tick
  | reset
deriving DecidableEq, Repr

/-- One small step of a widget under an event.  Events whose trigger is
unavailable (a tick with no live interval, dismissing a closed dialog,
clicking through an open modal) leave the state unchanged. -/
def step (s : WidgetState) : Event → WidgetState
  | Event.press =>
      if s.dialogOpen then s
      else if isTimerActive s then handleStop s else handleStart s
  | Event.tick =>
      if 0 < s.live then renderCheck { s with remaining := s.remaining - 10 } else s
  | Event.reset =>
      if s.dialogOpen then handleReset s else s

/-- Run a widget through a list of events. -/
def run (s : WidgetState) (evs : List Event) : WidgetState :=
  evs.foldl step s

/-! ## Disciplined interaction

`handleStart` sets no React state, so after a click that starts the
countdown the component does not re-render: for the first 10 ms the
button still reads `Start Challenge` and still has `handleStart`
attached.  The *disciplined* interactions are those in which that
stale window is not exploited: a click that would reach the
`handleStart` branch only happens when the widget owns no live
interval.  All other events are unconstrained. -/
def disciplined (s : WidgetState) : Event → Prop
  | Event.press => s.dialogOpen = true ∨ isTimerActive s = true ∨ s.live = 0
  | Event.tick => True
  | Event.reset => True

/-- States reachable from a freshly mounted widget (positive target)
through disciplined events. -/
inductive ReachableD : WidgetState → Prop where
  | init (t : ℕ) (ht : 0 < t) : ReachableD (init t)
  | step {s : WidgetState} {e : Event} :
      ReachableD s → disciplined s e → ReachableD (step s e)

/-- The inductive invariant of disciplined runs: the handle names the
only live interval (so `live ≤ 1`), the remaining time is a nonnegative
multiple of the 10 ms tick, strictly positive while an interval is
live, the dialog is showing whenever the countdown has ended, and the
target is a nonnegative multiple of the tick. -/
def InvD (s : WidgetState) : Prop :=
  s.live = (if s.handleLive then 1 else 0) ∧
  0 ≤ s.remaining ∧
  (10 : ℤ) ∣ s.remaining ∧
  (0 < s.live → 0 < s.remaining) ∧
  (s.remaining ≤ 0 → s.dialogOpen = true) ∧
  0 ≤ s.targetMs ∧ (10 : ℤ) ∣ s.targetMs

/-! ## Closed forms for the straight-line scenarios -/

/-- The widget after `Start` and `k` processed ticks, while the
countdown is still running. -/
def midState (t k : ℕ) : WidgetState :=
  ⟨1000 * t, 1000 * t - 10 * k, 1, true, false⟩

/-- The widget after the countdown expired: remaining `0`, interval
cleared, dialog open. -/
def expiredState (t : ℕ) : WidgetState :=
  ⟨1000 * t, 0, 0, false, true⟩

/-- The widget after `Stop` was pressed with `k` ticks processed:
interval cleared, dialog open. -/
def stoppedState (t k : ℕ) : WidgetState :=
  ⟨1000 * t, 1000 * t - 10 * k, 0, false, true⟩

/-! ## Several widget instances (src/src/components/TimerChallenge.jsx line 15)

In the final variant the interval handle lives in a `useRef` *inside*
the component function — "Every component instance will have it's own
dedicated timer useRef" — and `timeRemaining` in a `useState`, so the
whole `WidgetState` is owned per instance.  (The rejected early variant
in src/unnamed/part_000 line 19 kept `let timer` at module level,
shared by every instance.)  A system of widgets indexed by `ι` is a
function `ι → WidgetState`, and the host delivers each event to the one
instance whose button, interval or dialog produced it. -/
def systemStep {ι : Type} [DecidableEq ι]
    (w : ι → WidgetState) (i : ι) (e : Event) : ι → WidgetState :=
  fun j => if j = i then step (w i) e else w j

/-! ## Player (src/unnamed/part_002, second component)

The `<input>` is uncontrolled: typing changes only the DOM input's
`value` (reachable through the `playerName` ref), with no React state
touched.  `handleClick` reads `playerName.current.value`, stores it in
the `enteredPlayerName` state (initially `"unknown entity"`) and
imperatively clears the input. -/
structure PlayerState where
  inputValue : String
  enteredPlayerName : String
deriving DecidableEq, Repr

/-- A freshly mounted `Player`: empty input,
`useState("unknown entity")`. -/
def playerInit : PlayerState :=
  ⟨"", "unknown entity"⟩

/-- `handleClick` (src/unnamed/part_002 lines 106–129):
`setEnteredPlayerName(playerName.current.value); playerName.current.value = "";` -/
def handleClick (st : PlayerState) : PlayerState :=
  { inputValue := "", enteredPlayerName := st.inputValue }

/-- Events of the `Player` widget: editing the input (the DOM holds the
new text `s`) or clicking `Set Name`. -/
inductive PlayerEvent where
  | typeInput (s : String)
  | setNameClick
deriving DecidableEq, Repr

/-- One step of the `Player` widget. -/
def playerStep (st : PlayerState) : PlayerEvent → PlayerState
  | PlayerEvent.typeInput s => { st with inputValue := s }
  | PlayerEvent.setNameClick => handleClick st

/-- Run the `Player` widget through a list of events. -/
def playerRun (st : PlayerState) (evs : List PlayerEvent) : PlayerState :=
  evs.foldl playerStep st

/-- JavaScript's nullish coalescing `a ?? b`: `b` only when `a` is
`null`/`undefined`.  `enteredPlayerName` is a string-valued state (its
initial value and every value written by `handleClick` is a string), so
the left operand is modelled as `some` of that string. -/
def nullishCoalesce (a : Option String) (b : String) : String :=
  a.getD b

/-- The rendered heading
`<h2>Welcome {enteredPlayerName ?? "unknown entity"}</h2>`. -/
def displayedWelcome (st : PlayerState) : String :=
  "Welcome " ++ nullishCoalesce (some st.enteredPlayerName) "unknown entity"

/-! ## Run lemmas -/

theorem run_cons (s : WidgetState) (e : Event) (evs : List Event) :
    run s (e :: evs) = run (step s e) evs := rfl

theorem run_append (s : WidgetState) (l₁ l₂ : List Event) :
    run s (l₁ ++ l₂) = run (run s l₁) l₂ := by
  simp [run]

/-- With no live interval, advancing the scheduler does nothing. -/
theorem run_tick_fixed (s : WidgetState) (h : s.live = 0) (n : ℕ) :
    run s (List.replicate n Event.tick) = s := by
  have hstep : step s Event.tick = s := by simp [step, h]
  induction n with
  | zero => rfl
  | succ n ih => rw [List.replicate_succ, run_cons, hstep]; exact ih

/-! ## Closed forms of the straight-line scenarios -/

theorem step_init_press (t : ℕ) : step (init t) Event.press = midState t 0 := by
  simp [step, init, isTimerActive, handleStart, midState]

theorem step_midState_tick (t k : ℕ) (h : k + 1 < 100 * t) :
    step (midState t k) Event.tick = midState t (k + 1) := by
  have h1 : ¬ (1000 * (t : ℤ) - 10 * (k : ℤ) - 10 ≤ 0) := by omega
  simp [step, midState, renderCheck, h1]
  omega

theorem run_midState_interior (t : ℕ) :
    ∀ k j : ℕ, j + k < 100 * t →
      run (midState t j) (List.replicate k Event.tick) = midState t (j + k) := by
  intro k
  induction k with
  | zero => intro j _; simp [run]
  | succ k ih =>
      intro j h
      rw [List.replicate_succ, run_cons, step_midState_tick t j (by omega),
        ih (j + 1) (by omega)]
      congr 1
      omega

theorem step_midState_last (t k : ℕ) (h : k + 1 = 100 * t) :
    step (midState t k) Event.tick = expiredState t := by
  have h0 : 1000 * (t : ℤ) - 10 * (k : ℤ) - 10 ≤ 0 := by omega
  simp [step, midState, renderCheck, clearHandle, expiredState, h0]
  omega

theorem run_midState_expiry (t k j : ℕ) (hk : 0 < k) (h : j + k = 100 * t) :
    run (midState t j) (List.replicate k Event.tick) = expiredState t := by
  obtain ⟨m, rfl⟩ : ∃ m, k = m + 1 := ⟨k - 1, by omega⟩
  rw [List.replicate_succ', run_append, run_midState_interior t m j (by omega)]
  show step (midState t (j + m)) Event.tick = expiredState t
  exact step_midState_last t (j + m) (by omega)

theorem step_midState_press (t k : ℕ) (h0 : 0 < k) (hk : k < 100 * t) :
    step (midState t k) Event.press = stoppedState t k := by
  have hact : isTimerActive (midState t k) = true := by
    simp only [isTimerActive, midState, decide_eq_true_eq]
    constructor <;> omega
  simp [step, midState, hact, handleStop, clearHandle, stoppedState,
    isTimerActive] at hact ⊢
  omega

theorem step_stopped_reset (t k : ℕ) (ht : 0 < t) :
    step (stoppedState t k) Event.reset = init t := by
  have h : ¬ (1000 * (t : ℤ) ≤ 0) := by omega
  simp [step, stoppedState, handleReset, renderCheck, h, init]

/-! ## The invariant of disciplined runs -/

theorem invD_mk {tm rem : ℤ} {live : ℕ} {hl dlg : Bool}
    (e1 : live = if hl then 1 else 0) (e2 : 0 ≤ rem) (e3 : (10 : ℤ) ∣ rem)
    (e4 : 0 < live → 0 < rem) (e5 : rem ≤ 0 → dlg = true)
    (e6 : 0 ≤ tm) (e7 : (10 : ℤ) ∣ tm) :
    InvD ⟨tm, rem, live, hl, dlg⟩ :=
  ⟨e1, e2, e3, e4, e5, e6, e7⟩

theorem invD_init (t : ℕ) (ht : 0 < t) : InvD (init t) :=
  invD_mk rfl (by omega) (by omega) (fun _ => by omega)
    (fun h => absurd h (by omega)) (by omega) (by omega)

theorem invD_step {s : WidgetState} {e : Event} (h : InvD s) (hd : disciplined s e) :
    InvD (step s e) := by
  obtain ⟨tm, rem, live, hl, dlg⟩ := s
  obtain ⟨h1, h2, h3, h4, h5, h6, h7⟩ := h
  simp only at h1 h2 h3 h4 h5 h6 h7
  cases e with
  | press =>
      cases dlg with
      | true =>
          have hs : step ⟨tm, rem, live, hl, true⟩ Event.press
              = ⟨tm, rem, live, hl, true⟩ := by simp [step]
          rw [hs]
          exact invD_mk h1 h2 h3 h4 h5 h6 h7
      | false =>
          by_cases hc : (0 : ℤ) < rem ∧ rem < tm
          · have hact : isTimerActive ⟨tm, rem, live, hl, false⟩ = true := by
              simp [isTimerActive, hc]
            have hs : step ⟨tm, rem, live, hl, false⟩ Event.press
                = handleStop ⟨tm, rem, live, hl, false⟩ := by simp [step, hact]
            rw [hs]
            cases hl with
            | true =>
                have h1' : live = 1 := by simpa using h1
                have hs2 : handleStop ⟨tm, rem, live, true, false⟩
                    = ⟨tm, rem, live - 1, false, true⟩ := by
                  simp [handleStop, clearHandle]
                rw [hs2]
                exact invD_mk (show live - 1 = 0 by omega) h2 h3
                  (fun _ => hc.1) (fun _ => rfl) h6 h7
            | false =>
                have h1' : live = 0 := by simpa using h1
                have hs2 : handleStop ⟨tm, rem, live, false, false⟩
                    = ⟨tm, rem, live, false, true⟩ := by
                  simp [handleStop, clearHandle]
                rw [hs2]
                exact invD_mk h1 h2 h3 (fun _ => hc.1) (fun _ => rfl) h6 h7
          · have hact : isTimerActive ⟨tm, rem, live, hl, false⟩ = false := by
              simp only [isTimerActive, decide_eq_false_iff_not]
              exact hc
            have hlive : live = 0 := by
              rcases hd with hd | hd | hd
              · simp at hd
              · rw [hact] at hd; simp at hd
              · exact hd
            have hs : step ⟨tm, rem, live, hl, false⟩ Event.press
                = ⟨tm, rem, live + 1, true, false⟩ := by
              simp [step, hact, handleStart]
            rw [hs]
            have hrem : (0 : ℤ) < rem := by
              by_contra hr
              have h5' := h5 (by omega)
              simp at h5'
            exact invD_mk (show live + 1 = 1 by omega) h2 h3 (fun _ => hrem)
              (fun hr => absurd hr (by omega)) h6 h7
  | tick =>
      by_cases hlive : 0 < live
      · have hl1 : hl = true := by
          cases hl
          · simp at h1; omega
          · rfl
        subst hl1
        have h1' : live = 1 := by simpa using h1
        have hrem : (0 : ℤ) < rem := h4 hlive
        have hrem10 : (10 : ℤ) ≤ rem := by omega
        have hs : step ⟨tm, rem, live, true, dlg⟩ Event.tick
            = renderCheck ⟨tm, rem - 10, live, true, dlg⟩ := by
          simp [step, hlive]
        rw [hs]
        by_cases hz : rem - 10 ≤ 0
        · have hs2 : renderCheck ⟨tm, rem - 10, live, true, dlg⟩
              = ⟨tm, rem - 10, live - 1, false, true⟩ := by
            simp [renderCheck, clearHandle, hz]
          rw [hs2]
          exact invD_mk (show live - 1 = 0 by omega) (by omega) (by omega)
            (fun hh => absurd hh (by omega)) (fun _ => rfl) h6 h7
        · have hs2 : renderCheck ⟨tm, rem - 10, live, true, dlg⟩
              = ⟨tm, rem - 10, live, true, dlg⟩ := by
            simp [renderCheck, hz]
          rw [hs2]
          exact invD_mk h1 (by omega) (by omega) (fun _ => by omega)
            (fun hr => absurd hr hz) h6 h7
      · have hs : step ⟨tm, rem, live, hl, dlg⟩ Event.tick
            = ⟨tm, rem, live, hl, dlg⟩ := by simp [step, hlive]
        rw [hs]
        exact invD_mk h1 h2 h3 h4 h5 h6 h7
  | reset =>
      cases dlg with
      | false =>
          have hs : step ⟨tm, rem, live, hl, false⟩ Event.reset
              = ⟨tm, rem, live, hl, false⟩ := by simp [step]
          rw [hs]
          exact invD_mk h1 h2 h3 h4 h5 h6 h7
      | true =>
          have hs : step ⟨tm, rem, live, hl, true⟩ Event.reset
              = renderCheck ⟨tm, tm, live, hl, false⟩ := by
            simp [step, handleReset]
          rw [hs]
          by_cases hz : tm ≤ 0
          · cases hl with
            | true =>
                have h1' : live = 1 := by simpa using h1
                have hs2 : renderCheck ⟨tm, tm, live, true, false⟩
                    = ⟨tm, tm, live - 1, false, true⟩ := by
                  simp [renderCheck, clearHandle, hz]
                rw [hs2]
                exact invD_mk (show live - 1 = 0 by omega) h6 h7
                  (fun hh => absurd hh (by omega)) (fun _ => rfl) h6 h7
            | false =>
                have h1' : live = 0 := by simpa using h1
                have hs2 : renderCheck ⟨tm, tm, live, false, false⟩
                    = ⟨tm, tm, live, false, true⟩ := by
                  simp [renderCheck, clearHandle, hz]
                rw [hs2]
                exact invD_mk h1 h6 h7 (fun hh => absurd hh (by omega))
                  (fun _ => rfl) h6 h7
          · have hs2 : renderCheck ⟨tm, tm, live, hl, false⟩
                = ⟨tm, tm, live, hl, false⟩ := by
              simp [renderCheck, hz]
            rw [hs2]
            exact invD_mk h1 h6 h7 (fun _ => by omega) (fun hr => absurd hr hz) h6 h7

theorem reachableD_invD {s : WidgetState} (h : ReachableD s) : InvD s := by
  induction h with
  | init t ht => exact invD_init t ht
  | step _ hd ih => exact invD_step ih hd

/-- The one-second challenge, started and one tick in: a disciplined
reachable state with the countdown running. -/
theorem reachable_press_tick :
    ReachableD (run (init 1) [Event.press, Event.tick]) := by
  have r0 : ReachableD (init 1) := ReachableD.init 1 (by decide)
  have r1 : ReachableD (step (init 1) Event.press) := r0.step (Or.inr (Or.inr rfl))
  have r2 : ReachableD (step (step (init 1) Event.press) Event.tick) :=
    r1.step trivial
  exact r2

set_option maxRecDepth 8000

/-! ## The claims -/

/-- C1: for every dialog open of `ResultModal` with target duration `t > 0`
seconds and remaining time `r` milliseconds, if `r > 0` the dialog displays
a score equal to `round((1 - r/(t*1000)) * 100)`, and if `r ≤ 0` it displays
the explicit lost outcome instead of a score. -/
theorem resultModal_score_or_lost (t : ℕ) (r : ℤ) (ht : 0 < t) :
    (0 < r → modalHeading t r
      = ModalHeading.score (round ((1 - (r : ℚ) / ((t : ℚ) * 1000)) * 100))) ∧
    (r ≤ 0 → modalHeading t r = ModalHeading.lost) := by
  constructor
  · intro hr
    have hlose : didUserLose r = false := by
      simp only [didUserLose, decide_eq_false_iff_not]
      omega
    simp [modalHeading, hlose, score]
  · intro hr
    have hlose : didUserLose r = true := by
      simp only [didUserLose, decide_eq_true_eq]
      exact hr
    simp [modalHeading, hlose]

/-- C1 witness, at `t = 5` seconds and `r = 2000` ms. -/
theorem resultModal_score_or_lost_witness :
    (0 : ℕ) < 5 ∧ (0 : ℤ) < 2000 ∧
    modalHeading 5 2000
      = ModalHeading.score (round ((1 - (2000 : ℚ) / (((5 : ℕ) : ℚ) * 1000)) * 100)) :=
  ⟨by decide, by decide, (resultModal_score_or_lost 5 2000 (by decide)).1 (by decide)⟩

/-- C2 counterexample: the claim that a stop press cancels every pending
scheduled callback fails.  From a fresh one-second widget, two presses in
the first tick interval arm two intervals (the button still reads Start);
after one tick the button reads Stop, and pressing it opens the dialog but
clears only the interval named by `timer.current` — the next tick still
decrements the remaining time from 990 to 980. -/
theorem stop_misses_leaked_interval :
    isTimerActive (run (init 1) [Event.press, Event.press, Event.tick]) = true ∧
    (run (init 1) [Event.press, Event.press, Event.tick, Event.press]).dialogOpen
      = true ∧
    (run (init 1) [Event.press, Event.press, Event.tick, Event.press]).remaining
      = 990 ∧
    (run (init 1)
        [Event.press, Event.press, Event.tick, Event.press, Event.tick]).remaining
      = 980 := by
  decide

/-- C2 (amended): in every disciplined reachable state (start never pressed
again before the first tick), pressing the control while the countdown runs
performs `handleStop`, which synchronously cancels the one pending interval:
no interval stays live, and advancing the scheduler any amount afterwards
leaves the widget unchanged — no further decrement of the remaining time and
no expiry transition.  When two callbacks are pending, stop cancels only the
one named by `timer.current`. -/
theorem stop_cancels_single_pending (s : WidgetState) (hs : ReachableD s)
    (hact : isTimerActive s = true) (hdo : s.dialogOpen = false) :
    (step s Event.press).live = 0 ∧
    ∀ n : ℕ, run (step s Event.press) (List.replicate n Event.tick)
      = step s Event.press := by
  obtain ⟨h1, _, _, _, _, _, _⟩ := reachableD_invD hs
  have hstop : step s Event.press = handleStop s := by
    simp [step, hdo, hact]
  have hlive : (handleStop s).live = 0 := by
    by_cases hl : s.handleLive
    · simp only [hl, if_true] at h1
      simp [handleStop, clearHandle, hl]
      omega
    · simp only [hl, Bool.false_eq_true, if_false] at h1
      simpa [handleStop, clearHandle, hl] using h1
  rw [hstop]
  exact ⟨hlive, fun n => run_tick_fixed _ hlive n⟩

/-- C2 witness: the one-second widget one tick in, stopped, then the
scheduler advanced 200 ticks (well past the original expiry point). -/
theorem stop_cancels_single_pending_witness :
    isTimerActive (run (init 1) [Event.press, Event.tick]) = true ∧
    (run (init 1) [Event.press, Event.tick]).dialogOpen = false ∧
    (step (run (init 1) [Event.press, Event.tick]) Event.press).live = 0 ∧
    run (step (run (init 1) [Event.press, Event.tick]) Event.press)
        (List.replicate 200 Event.tick)
      = step (run (init 1) [Event.press, Event.tick]) Event.press := by
  have h := stop_cancels_single_pending _ reachable_press_tick (by decide) (by decide)
  exact ⟨by decide, by decide, h.1, h.2 200⟩

/-- C3 counterexample: the claim that at most one live timer exists in every
reachable state, because the UI exposes start only when idle, fails.  After
a first press the component does not re-render (`handleStart` sets no
state), so `isTimerActive` is still false and the button still exposes
start; a second press arms a second interval. -/
theorem double_press_arms_two_intervals :
    isTimerActive (init 1) = false ∧
    isTimerActive (run (init 1) [Event.press]) = false ∧
    (run (init 1) [Event.press, Event.press]).live = 2 := by
  decide

/-- C3 (amended): in every state reachable through disciplined events — the
start branch of the control is never invoked while an interval is live,
which rules out only a repeat press inside the first 10 ms tick interval —
at most one live timer handle exists. -/
theorem at_most_one_live_interval (s : WidgetState) (hs : ReachableD s) :
    s.live ≤ 1 := by
  obtain ⟨h1, _, _, _, _, _, _⟩ := reachableD_invD hs
  by_cases hl : s.handleLive
  · simp only [hl, if_true] at h1
    omega
  · simp only [hl, Bool.false_eq_true, if_false] at h1
    omega

/-- C3 witness, at the running one-second widget. -/
theorem at_most_one_live_interval_witness :
    (run (init 1) [Event.press, Event.tick]).live ≤ 1 :=
  at_most_one_live_interval _ reachable_press_tick

/-- C4 counterexample: the claim that the exposed remaining time is never
negative (clamped at zero) fails.  With two intervals armed by a double
press, the render at zero clears only the handle interval; the leaked one
fires again and the widget renders — and passes to `ResultModal` — a
remaining time of `-10`.  No clamping exists in the code. -/
theorem leaked_interval_drives_remaining_negative :
    (run (init 1)
        (Event.press :: Event.press :: List.replicate 101 Event.tick)).remaining
      = -10 := by
  decide

/-- C4 (amended): in every disciplined reachable state the remaining time —
the value passed to `ResultModal` and rendered — is nonnegative.  No
clamping is involved: with whole-second targets the raw value steps through
multiples of the 10 ms tick and the interval is cleared exactly at zero, so
the exposed value (equal to the raw value) never goes below zero. -/
theorem remaining_nonneg_of_disciplined (s : WidgetState) (hs : ReachableD s) :
    0 ≤ s.remaining :=
  (reachableD_invD hs).2.1

/-- C4 witness, at the running one-second widget. -/
theorem remaining_nonneg_of_disciplined_witness :
    0 ≤ (run (init 1) [Event.press, Event.tick]).remaining :=
  remaining_nonneg_of_disciplined _ reachable_press_tick

/-- C5: for every duration `t > 0` seconds, starting the countdown and
letting it run to completion (the `100 * t` scheduled ticks) ends with
remaining time exactly 0, the interval cleared, the dialog open, and the
dialog reporting exactly the lost outcome. -/
theorem full_countdown_expires (t : ℕ) (ht : 0 < t) :
    run (init t) (Event.press :: List.replicate (100 * t) Event.tick)
      = expiredState t ∧
    (expiredState t).remaining = 0 ∧ (expiredState t).live = 0 ∧
    (expiredState t).dialogOpen = true ∧
    modalHeading t (expiredState t).remaining = ModalHeading.lost := by
  refine ⟨?_, rfl, rfl, rfl, by simp [modalHeading, didUserLose, expiredState]⟩
  rw [run_cons, step_init_press]
  exact run_midState_expiry t (100 * t) 0 (by omega) (by omega)

/-- C5 witness, at `t = 1`. -/
theorem full_countdown_expires_witness :
    (0 : ℕ) < 1 ∧
    run (init 1) (Event.press :: List.replicate (100 * 1) Event.tick)
      = expiredState 1 ∧
    modalHeading 1 (expiredState 1).remaining = ModalHeading.lost :=
  ⟨by decide, (full_countdown_expires 1 (by decide)).1,
    (full_countdown_expires 1 (by decide)).2.2.2.2⟩

/-- C6: for every duration `t` and stop after `k` ticks with
`0 < k < 100 * t` (stop time `T = k/100` seconds, `0 < T < t`), stopping
yields a remaining time within one tick granularity (10 ms) of `t − T`
seconds — here exactly equal — and the dialog's score equals
`round((T/t) * 100)`. -/
theorem stop_remaining_and_score (t k : ℕ) (h0 : 0 < k) (hk : k < 100 * t) :
    run (init t) (Event.press :: (List.replicate k Event.tick ++ [Event.press]))
      = stoppedState t k ∧
    (stoppedState t k).remaining = 1000 * (t : ℤ) - 10 * (k : ℤ) ∧
    |((stoppedState t k).remaining : ℚ) - ((t : ℚ) - (k : ℚ) / 100) * 1000| ≤ 10 ∧
    modalHeading t (stoppedState t k).remaining
      = ModalHeading.score (round ((((k : ℚ) / 100) / (t : ℚ)) * 100)) := by
  have ht : 0 < t := by omega
  refine ⟨?_, rfl, ?_, ?_⟩
  · rw [run_cons, step_init_press, run_append,
      run_midState_interior t k 0 (by omega)]
    show step (midState t (0 + k)) Event.press = stoppedState t k
    rw [Nat.zero_add]
    exact step_midState_press t k h0 hk
  · show |((1000 * (t : ℤ) - 10 * (k : ℤ) : ℤ) : ℚ)
        - ((t : ℚ) - (k : ℚ) / 100) * 1000| ≤ 10
    have hcast : ((1000 * (t : ℤ) - 10 * (k : ℤ) : ℤ) : ℚ)
        = ((t : ℚ) - (k : ℚ) / 100) * 1000 := by
      push_cast
      ring
    rw [hcast, sub_self, abs_zero]
    norm_num
  · have hrem : (0 : ℤ) < 1000 * (t : ℤ) - 10 * (k : ℤ) := by omega
    have hlose : didUserLose (1000 * (t : ℤ) - 10 * (k : ℤ)) = false := by
      simp only [didUserLose, decide_eq_false_iff_not]
      omega
    show modalHeading t (1000 * (t : ℤ) - 10 * (k : ℤ)) = _
    simp only [modalHeading, hlose, Bool.false_eq_true, if_false, score]
    congr 1
    have ht0 : (t : ℚ) ≠ 0 := Nat.cast_ne_zero.mpr (by omega)
    push_cast
    field_simp
    ring

/-- C6 witness: the spec's own example, `t = 10` s, stop at `4.5` s
(`k = 450` ticks), remaining `5.5` s and score `45`. -/
theorem stop_remaining_and_score_witness :
    0 < 450 ∧ 450 < 100 * 10 ∧
    run (init 10) (Event.press :: (List.replicate 450 Event.tick ++ [Event.press]))
      = stoppedState 10 450 ∧
    (stoppedState 10 450).remaining = 5500 ∧
    modalHeading 10 (stoppedState 10 450).remaining = ModalHeading.score 45 := by
  have h := stop_remaining_and_score 10 450 (by decide) (by decide)
  refine ⟨by decide, by decide, h.1, by decide, ?_⟩
  have hr := h.2.2.2
  have : round ((((450 : ℕ) : ℚ) / 100) / ((10 : ℕ) : ℚ) * 100) = 45 := by
    norm_num [round_eq]
  rw [hr, this]

/-- C7: for every widget and every stop-then-dismiss interaction (start,
`k` ticks with `0 < k < 100 * t`, stop, dismiss-the-dialog), the reset run
by the dismissal restores the remaining time to exactly the full
`targetTime * 1000` ms and the idle state: the resulting state equals that
of a freshly created widget with the same configuration, so the two are
observationally indistinguishable. -/
theorem reset_restores_fresh (t k : ℕ) (h0 : 0 < k) (hk : k < 100 * t) :
    run (init t)
        (Event.press :: (List.replicate k Event.tick ++ [Event.press, Event.reset]))
      = init t ∧
    (init t).remaining = 1000 * (t : ℤ) ∧ (init t).live = 0 ∧
    isTimerActive (init t) = false := by
  have ht : 0 < t := by omega
  refine ⟨?_, rfl, rfl, by simp [isTimerActive, init]⟩
  rw [run_cons, step_init_press, run_append,
    run_midState_interior t k 0 (by omega)]
  show run (midState t (0 + k)) [Event.press, Event.reset] = init t
  rw [Nat.zero_add, run_cons, step_midState_press t k h0 hk, run_cons,
    step_stopped_reset t k ht]
  rfl

/-- C7 witness, at `t = 5`, stop after `k = 100` ticks. -/
theorem reset_restores_fresh_witness :
    0 < 100 ∧ 100 < 100 * 5 ∧
    run (init 5)
        (Event.press :: (List.replicate 100 Event.tick ++ [Event.press, Event.reset]))
      = init 5 :=
  ⟨by decide, by decide, (reset_restores_fresh 5 100 (by decide) (by decide)).1⟩

/-- C8: every operation (start, stop, tick, reset) delivered to one
`TimerChallenge` instance leaves the whole state — remaining time, timer
handle, dialog — of every other instance unchanged: the handle is
per-instance owned state (a `useRef` inside the component), never a
module-level shared variable. -/
theorem operations_do_not_disturb_other_instances {ι : Type} [DecidableEq ι]
    (w : ι → WidgetState) (i j : ι) (e : Event) (hij : j ≠ i) :
    systemStep w i e j = w j := by
  simp [systemStep, hij]

/-- C8 witness: two instances of the one-second widget, a press on the
first leaves the second untouched. -/
theorem operations_do_not_disturb_other_instances_witness :
    (1 : Fin 2) ≠ 0 ∧
    systemStep (fun _ => init 1) (0 : Fin 2) Event.press 1 = init 1 :=
  ⟨by decide,
    operations_do_not_disturb_other_instances (fun _ => init 1) 0 1 Event.press
      (by decide)⟩

/-- C9: the `Player` component's displayed name changes only when the
submit button is pressed, never on individual keystrokes; on submission it
becomes the input element's current value and the input is cleared; before
any submission the displayed name is the sentinel default. -/
theorem name_set_only_on_submit (st : PlayerState) (s : String)
    (evs : List PlayerEvent) (hno : ∀ e ∈ evs, e ≠ PlayerEvent.setNameClick) :
    displayedWelcome playerInit = "Welcome unknown entity" ∧
    displayedWelcome (playerStep st (PlayerEvent.typeInput s))
      = displayedWelcome st ∧
    (playerStep st PlayerEvent.setNameClick).enteredPlayerName = st.inputValue ∧
    (playerStep st PlayerEvent.setNameClick).inputValue = "" ∧
    displayedWelcome (playerRun playerInit evs) = "Welcome unknown entity" := by
  refine ⟨rfl, rfl, rfl, rfl, ?_⟩
  have key : ∀ (l : List PlayerEvent) (st0 : PlayerState),
      (∀ e ∈ l, e ≠ PlayerEvent.setNameClick) →
      (playerRun st0 l).enteredPlayerName = st0.enteredPlayerName := by
    intro l
    induction l with
    | nil => intro st0 _; rfl
    | cons e l ih =>
        intro st0 h
        cases e with
        | typeInput s' =>
            have step1 := ih { st0 with inputValue := s' }
              (fun e he => h e (List.mem_cons_of_mem _ he))
            simpa [playerRun, playerStep] using step1
        | setNameClick => exact absurd rfl (h _ (List.mem_cons_self _ _))
  have hname := key evs playerInit hno
  show "Welcome "
      ++ nullishCoalesce (some (playerRun playerInit evs).enteredPlayerName)
        "unknown entity"
    = "Welcome unknown entity"
  rw [hname]
  rfl

/-- C9 witness: typing a name is not displayed; submitting stores the
typed value. -/
theorem name_set_only_on_submit_witness :
    (∀ e ∈ [PlayerEvent.typeInput "Alice"], e ≠ PlayerEvent.setNameClick) ∧
    displayedWelcome (playerRun playerInit [PlayerEvent.typeInput "Alice"])
      = "Welcome unknown entity" ∧
    (playerStep ⟨"Alice", "unknown entity"⟩
        PlayerEvent.setNameClick).enteredPlayerName
      = "Alice" := by
  have h := name_set_only_on_submit ⟨"Alice", "unknown entity"⟩ "B"
    [PlayerEvent.typeInput "Alice"] (by decide)
  exact ⟨by decide, h.2.2.2.2, h.2.2.1⟩

/-- C10: pressing the `Player` submit button while the text input is empty
makes the displayed name the empty string, not the sentinel: the
nullish-coalescing fallback applies only to `null`/`undefined`, and the
stored state is the (empty) string value. -/
theorem empty_submit_yields_empty_name (st : PlayerState)
    (h : st.inputValue = "") :
    (playerStep st PlayerEvent.setNameClick).enteredPlayerName = "" ∧
    (playerStep st PlayerEvent.setNameClick).enteredPlayerName
      ≠ "unknown entity" ∧
    displayedWelcome (playerStep st PlayerEvent.setNameClick) = "Welcome " ∧
    nullishCoalesce (some "") "unknown entity" = "" ∧
    nullishCoalesce none "unknown entity" = "unknown entity" := by
  refine ⟨h, ?_, ?_, rfl, rfl⟩
  · show st.inputValue ≠ "unknown entity"
    rw [h]
    decide
  · show "Welcome " ++ nullishCoalesce (some st.inputValue) "unknown entity"
      = "Welcome "
    rw [h]
    rfl

/-- C10 witness, submitting the fresh (empty) input. -/
theorem empty_submit_yields_empty_name_witness :
    playerInit.inputValue = "" ∧
    (playerStep playerInit PlayerEvent.setNameClick).enteredPlayerName = "" ∧
    (playerStep playerInit PlayerEvent.setNameClick).enteredPlayerName
      ≠ "unknown entity" :=
  ⟨rfl, (empty_submit_yields_empty_name playerInit rfl).1,
    (empty_submit_yields_empty_name playerInit rfl).2.1⟩

end Countdown
